import Mathlib

/-!
Verification of the radio-watchdog core against its specification.

The Rust sources are shallowly embedded: timestamps become integers
(seconds), `f32` durations and percentages become rationals, the external
chromaprint match routine becomes an explicit function parameter, and the
stateful components become pure step functions on record types.
-/

namespace RadioWatchdog

/-! ## Comparator (src/utils/comparator.rs) -/

/-- Embeds `ComparisonResult` from comparator.rs; `similarity_percent`
is kept as a rational. -/
structure ComparisonResult where
  stream1 : String
  stream2 : String
  similarity_percent : ℚ
  is_within_channel : Bool
  is_error : Bool
  offset_seconds : Option ℚ
deriving DecidableEq

/-- Embeds the `window_size` computation of `StreamComparator::new`:
`(comparison_duration / item_duration) as usize` (truncating cast). -/
def window_size (comparison_duration item_duration : ℚ) : ℕ :=
  Nat.floor (comparison_duration / item_duration)

/-- Embeds the `min_buffer_size` computation of `StreamComparator::new`:
`(min_buffer_duration / item_duration) as usize` (truncating cast). -/
def min_buffer_size (min_buffer_duration item_duration : ℚ) : ℕ :=
  Nat.floor (min_buffer_duration / item_duration)

/-- Embeds `StreamComparator::get_similarity_time`.  The aggregation of
`rusty_chromaprint::match_fingerprints` output (total similar time and
average offset) is abstracted as the function argument `matchFn`; the
length guard against `window_size` is the code's own first check. -/
def get_similarity_time (matchFn : List ℕ → List ℕ → Option (ℚ × ℚ))
    (windowSize : ℕ) (fp1 fp2 : List ℕ) : Option (ℚ × ℚ) :=
  if fp1.length < windowSize ∨ fp2.length < windowSize then none
  else matchFn fp1 fp2

/-- All ordered pairs `(l[i], l[j])` with `i < j`, mirroring the nested
index loops of the comparator. -/
def index_pairs {α : Type} : List α → List (α × α)
  | [] => []
  | x :: xs => xs.map (fun y => (x, y)) ++ index_pairs xs

/-- Insertion of a named fingerprint into a list sorted by name,
used to mirror `streams.sort()`. -/
def insert_by_name (x : String × List ℕ) :
    List (String × List ℕ) → List (String × List ℕ)
  | [] => [x]
  | y :: ys => if x.1 ≤ y.1 then x :: y :: ys else y :: insert_by_name x ys

/-- Sorting by stream name, mirroring `streams.sort()` before the pair
loop of `compare_channel_streams`. -/
def sort_by_name : List (String × List ℕ) → List (String × List ℕ)
  | [] => []
  | x :: xs => insert_by_name x (sort_by_name xs)

/-- Builds the within-channel result for one pair, embedding the body of
the pair loop of `compare_channel_streams` (lines 163-205). -/
def mk_within_result (matchFn : List ℕ → List ℕ → Option (ℚ × ℚ))
    (windowSize : ℕ) (itemDuration matchThreshold : ℚ)
    (p : (String × List ℕ) × (String × List ℕ)) : Option ComparisonResult :=
  match get_similarity_time matchFn windowSize p.1.2 p.2.2 with
  | none => none
  | some (similarTime, offset) =>
    let totalDuration : ℚ := (p.1.2.length : ℚ) * itemDuration
    let similarityPercent : ℚ := similarTime / totalDuration * 100
    let isError : Bool := decide (similarityPercent < matchThreshold)
    if p.1.1 < p.2.1 then
      some ⟨p.1.1, p.2.1, similarityPercent, true, isError, some offset⟩
    else
      some ⟨p.2.1, p.1.1, similarityPercent, true, isError, some (-offset)⟩

/-- Embeds the fingerprint-collection loop of `compare_channel_streams`
(lines 146-154): only streams whose snapshot reaches `min_buffer_size`
take part in the cycle. -/
def channel_fingerprints (router : String → Option (List ℕ))
    (streamNames : List String) (minBufferSize : ℕ) :
    List (String × List ℕ) :=
  streamNames.filterMap (fun n =>
    match router n with
    | none => none
    | some fp => if minBufferSize ≤ fp.length then some (n, fp) else none)

/-- Embeds `StreamComparator::compare_channel_streams`.  `router` maps a
stream name to its fingerprint snapshot (`get_stream_fingerprint`). -/
def compare_channel_streams (router : String → Option (List ℕ))
    (streamNames : List String) (windowSize : ℕ)
    (minBufferSize : ℕ) (itemDuration matchThreshold : ℚ)
    (matchFn : List ℕ → List ℕ → Option (ℚ × ℚ)) : List ComparisonResult :=
  if streamNames.length < 2 then []
  else if (channel_fingerprints router streamNames minBufferSize).length < 2
  then []
  else
    (index_pairs
      (sort_by_name
        (channel_fingerprints router streamNames minBufferSize))).filterMap
      (mk_within_result matchFn windowSize itemDuration matchThreshold)

/-- Builds the cross-channel result for one pair of streams, embedding
the innermost body of `compare_across_channels` (lines 235-271). -/
def mk_cross_result (router : String → Option (List ℕ))
    (matchFn : List ℕ → List ℕ → Option (ℚ × ℚ)) (windowSize : ℕ)
    (minBufferSize : ℕ) (itemDuration divergenceThreshold : ℚ)
    (p : String × String) : Option ComparisonResult :=
  match router p.1, router p.2 with
  | some fp1, some fp2 =>
    if minBufferSize ≤ fp1.length ∧ minBufferSize ≤ fp2.length then
      match get_similarity_time matchFn windowSize fp1 fp2 with
      | none => none
      | some (similarTime, _) =>
        let totalDuration : ℚ := (fp1.length : ℚ) * itemDuration
        let similarityPercent : ℚ := similarTime / totalDuration * 100
        let isError : Bool := decide (divergenceThreshold < similarityPercent)
        if p.1 < p.2 then
          some ⟨p.1, p.2, similarityPercent, false, isError, none⟩
        else
          some ⟨p.2, p.1, similarityPercent, false, isError, none⟩
    else none
  | _, _ => none

/-- Embeds `StreamComparator::compare_across_channels`: every stream of
channel 1 against every stream of channel 2. -/
def compare_across_channels (router : String → Option (List ℕ))
    (streams1 streams2 : List String) (windowSize : ℕ)
    (minBufferSize : ℕ) (itemDuration divergenceThreshold : ℚ)
    (matchFn : List ℕ → List ℕ → Option (ℚ × ℚ)) : List ComparisonResult :=
  (streams1.flatMap (fun s1 => streams2.map (fun s2 => (s1, s2)))).filterMap
    (mk_cross_result router matchFn windowSize minBufferSize itemDuration
      divergenceThreshold)

/-! ## Rolling fingerprint buffer (src/utils/audiostream.rs) -/

/-- Embeds the `record_size` computation of `AudioStream::new`:
`(buffer_duration / item_duration) as usize` (truncating cast). -/
def record_size (buffer_duration item_duration : ℚ) : ℕ :=
  Nat.floor (buffer_duration / item_duration)

/-- Embeds one buffer update of the fingerprint thread in
`AudioStream::new` (lines 92-100): the buffer is replaced by the
fingerprinter's current output, then, when longer than `record_size`,
trimmed to its last `record_size` items via `split_off`. -/
def update_fingerprint_buffer (fingerprint : List ℕ) (recordSize : ℕ) :
    List ℕ :=
  if recordSize < fingerprint.length then
    fingerprint.drop (fingerprint.length - recordSize)
  else fingerprint

/-! ## Alert manager (src/utils/alertmanager.rs) -/

/-- Embeds `AlertState`. -/
inductive AlertState where
  | NewFailing
  | FailingAlertSent
  | FailingReminderNeeded
  | NewPassing
  | Passing
deriving DecidableEq

/-- Embeds `PendingAggregation`. -/
inductive PendingAggregation where
  | None
  | NewFailure
  | Cleared
  | Reminder
deriving DecidableEq

/-- Embeds `Alert`; timestamps are integers in seconds. -/
structure Alert where
  name : String
  message : String
  failing_since : Option ℤ
  last_sent_update : Option ℤ
  pending_aggregation : PendingAggregation
deriving DecidableEq

/-- Embeds `Duration::minutes(10)` from `Alert::alert_state`, in
seconds. -/
def reminder_interval_seconds : ℤ := 600

/-- Embeds `Alert::new`. -/
def Alert.new (name message : String) : Alert :=
  ⟨name, message, none, none, PendingAggregation.None⟩

/-- Embeds `Alert::alert_state` (lines 60-73), with `now` passed
explicitly instead of read from the clock. -/
def Alert.alert_state (a : Alert) (now : ℤ) : AlertState :=
  match a.failing_since, a.last_sent_update with
  | some _, none => AlertState.NewFailing
  | some _, some lastSent =>
    if reminder_interval_seconds ≤ now - lastSent then
      AlertState.FailingReminderNeeded
    else AlertState.FailingAlertSent
  | none, some _ => AlertState.NewPassing
  | none, none => AlertState.Passing

/-- Embeds `Alert::mark_failing`. -/
def Alert.mark_failing (a : Alert) (message : String) (now : ℤ) : Alert :=
  { a with
    message := message
    failing_since := match a.failing_since with
      | none => some now
      | some t => some t }

/-- Embeds `Alert::mark_passing`. -/
def Alert.mark_passing (a : Alert) : Alert :=
  { a with failing_since := none }

/-- Embeds `Alert::register_sent` (lines 75-85). -/
def Alert.register_sent (a : Alert) (now : ℤ) : Alert :=
  match a.alert_state now with
  | AlertState.NewFailing => { a with last_sent_update := some now }
  | AlertState.FailingReminderNeeded => { a with last_sent_update := some now }
  | AlertState.NewPassing => { a with last_sent_update := none }
  | _ => a

/-- Embeds the per-alert body of `AlertManager::update_alert`
(lines 111-132), after the entry has been fetched or created. -/
def update_alert_entry (a : Alert) (isError : Bool) (message : String)
    (now : ℤ) : Alert :=
  let previousState := a.alert_state now
  let a1 := if isError then a.mark_failing message now else a.mark_passing
  let newState := a1.alert_state now
  if newState = AlertState.NewPassing ∧ previousState ≠ AlertState.NewPassing
  then
    Alert.register_sent
      { a1 with pending_aggregation := PendingAggregation.Cleared } now
  else a1

/-- Embeds `AlertManager::update_alert` on a single entry of the alert
map: `entry(id).or_insert_with(Alert::new(id, message))` followed by the
update body. -/
def update_alert (existing : Option Alert) (alertId : String)
    (isError : Bool) (message : String) (now : ℤ) : Alert :=
  update_alert_entry (existing.getD (Alert.new alertId message)) isError
    message now

/-- Transport message categories, one per aggregation bucket of
`process_aggregated_alerts`. -/
inductive MsgKind where
  | NewFailure
  | Cleared
  | Reminder
deriving DecidableEq

/-- Embeds the per-alert body of `AlertManager::process_alerts`
(lines 138-150): mark reminders pending and register them as sent. -/
def process_alerts_step (a : Alert) (now : ℤ) : Alert :=
  if a.alert_state now = AlertState.FailingReminderNeeded then
    Alert.register_sent
      { a with pending_aggregation := PendingAggregation.Reminder } now
  else a

/-- Embeds the per-alert body of
`AlertManager::process_aggregated_alerts` (lines 163-191), returning the
updated alert together with this alert's contribution to the aggregated
transport buckets. -/
def process_aggregated_step (a : Alert) (now gracePeriod : ℤ) :
    Alert × List MsgKind :=
  match a.pending_aggregation with
  | PendingAggregation.NewFailure =>
    ({ a with pending_aggregation := PendingAggregation.None },
      [MsgKind.NewFailure])
  | PendingAggregation.Cleared =>
    ({ a with pending_aggregation := PendingAggregation.None },
      [MsgKind.Cleared])
  | PendingAggregation.Reminder =>
    ({ a with pending_aggregation := PendingAggregation.None },
      [MsgKind.Reminder])
  | PendingAggregation.None =>
    match a.alert_state now, a.failing_since with
    | AlertState.NewFailing, some failingSince =>
      if gracePeriod ≤ now - failingSince then
        (Alert.register_sent a now, [MsgKind.NewFailure])
      else (a, [])
    | _, _ => (a, [])

/-- One 30-second tick of `start_alert_loop` as observed by a single
alert: `process_alerts` followed by `process_aggregated_alerts`. -/
def alert_loop_tick (a : Alert) (now gracePeriod : ℤ) :
    Alert × List MsgKind :=
  process_aggregated_step (process_alerts_step a now) now gracePeriod

/-- A run of alert-loop ticks at the given times, collecting every
transport message contributed by this alert. -/
def run_alert_ticks (a : Alert) (times : List ℤ) (gracePeriod : ℤ) :
    Alert × List MsgKind :=
  match times with
  | [] => (a, [])
  | t :: ts =>
    let step := alert_loop_tick a t gracePeriod
    let rest := run_alert_ticks step.1 ts gracePeriod
    (rest.1, step.2 ++ rest.2)

/-- Modelled from the spec: the alert-state table of §4.6, as a function
of `(failing_since, last_sent_at, now, reminder_interval)`, for
comparison with the code's `Alert::alert_state`. -/
def spec_alert_state_table (failingSince lastSentAt : Option ℤ)
    (now reminderInterval : ℤ) : AlertState :=
  match failingSince, lastSentAt with
  | some _, none => AlertState.NewFailing
  | some _, some lastSent =>
    if reminderInterval ≤ now - lastSent then
      AlertState.FailingReminderNeeded
    else AlertState.FailingAlertSent
  | none, some _ => AlertState.NewPassing
  | none, none => AlertState.Passing

/-! ## Command processor (src/utils/commandprocessor.rs) -/

/-- Embeds `StreamHealth`. -/
inductive StreamHealth where
  | Running
  | Stalled
  | Dead
deriving DecidableEq

/-- Embeds the observable state of `CommandHolder`; the child handle and
broadcast channel are not modelled. -/
structure CommandState where
  command : String
  args : List String
  restart_count : ℕ
  health : StreamHealth
  last_message : ℤ
deriving DecidableEq

/-- Embeds `stall_timeout` (`Duration::from_secs(30)`), in seconds. -/
def stall_timeout_seconds : ℤ := 30

/-- Embeds one 5-second tick of `CommandHolder::start_watchdog`
(lines 148-181). -/
def watchdog_tick (s : CommandState) (now : ℤ) : CommandState :=
  let elapsed := now - s.last_message
  match s.health with
  | StreamHealth.Running =>
    if stall_timeout_seconds < elapsed then
      { s with health := StreamHealth.Stalled }
    else if s.restart_count ≠ 0 then { s with restart_count := 0 }
    else s
  | StreamHealth.Stalled =>
    if elapsed ≤ stall_timeout_seconds then
      { s with health := StreamHealth.Running }
    else s
  | StreamHealth.Dead => { s with restart_count := s.restart_count + 1 }

/-- Embeds `CommandHolder::respawn` (lines 185-193): returns the state
after the respawn, paired with the number of seconds slept before it
(`30 * restart_count` as read at entry).  `now` is the time at which the
sleep ends; `spawn()` reuses `self.command` and `self.args` unchanged. -/
def respawn (s : CommandState) (now : ℤ) : CommandState × ℕ :=
  ({ s with last_message := now, health := StreamHealth.Running },
    30 * s.restart_count)

/-! ## Startup sanity checks (src/main.rs) -/

/-- Embeds `StreamType`. -/
inductive StreamType where
  | Web
  | NRSC
  | FM
deriving DecidableEq

/-- One configured stream entry: its name, type and host (the `path` is
irrelevant to the sanity checks). -/
structure StreamEntry where
  name : String
  type : StreamType
  host : String
deriving DecidableEq

/-- Embeds one iteration of the sanity-check loop of `main`
(lines 208-283) for a single stream.  `sdrs` is `config.sdrs` reduced to
the set of defined SDR names.  `Except.error ()` models the early
`return` from `main`; `Except.ok (some name)` models a stream being
registered with the router; `Except.ok none` models the FM arm, which
only logs `"FM stream type is not currently supported"` and falls
through without returning.  Spawn failures of the external decoder
process are not modelled (the success path is taken). -/
def check_stream (sdrs : Option (List String)) (channelName : String)
    (s : StreamEntry) : Except Unit (Option String) :=
  match s.type with
  | StreamType.FM => Except.ok none
  | StreamType.NRSC =>
    match sdrs with
    | none => Except.error ()
    | some defined =>
      if s.host ∈ defined then
        Except.ok (some (channelName ++ "-" ++ s.name))
      else Except.error ()
  | StreamType.Web => Except.ok (some (channelName ++ "-" ++ s.name))

/-- Embeds the whole sanity-check loop of `main`: returns the list of
stream names registered with the router, or `Except.error ()` when
`main` returns early on a fatal configuration error. -/
def run_sanity_checks (sdrs : Option (List String))
    (channels : List (String × List StreamEntry)) :
    Except Unit (List String) :=
  match channels with
  | [] => Except.ok []
  | (channelName, streams) :: rest =>
    match run_channel_checks sdrs channelName streams with
    | Except.error e => Except.error e
    | Except.ok added =>
      match run_sanity_checks sdrs rest with
      | Except.error e => Except.error e
      | Except.ok more => Except.ok (added ++ more)
where
  /-- The inner loop over one channel's streams. -/
  run_channel_checks (sdrs : Option (List String)) (channelName : String) :
      List StreamEntry → Except Unit (List String)
    | [] => Except.ok []
    | s :: ss =>
      match check_stream sdrs channelName s with
      | Except.error e => Except.error e
      | Except.ok added =>
        match run_channel_checks sdrs channelName ss with
        | Except.error e => Except.error e
        | Except.ok more =>
          Except.ok (added.toList ++ more)

/-! ## NRSC manager (src/utils/nrsc.rs) -/

/-- Embeds the observable state of `NrscManager`: the map from program
number to its decoder process, each identified by the broadcast sender
it owns, together with a counter of decoder processes spawned so far.
`next_id` supplies fresh sender identities. -/
structure NrscState where
  processes : List (String × ℕ)
  next_id : ℕ
  spawned : ℕ
deriving DecidableEq

/-- Embeds `NrscManager::add_program` (lines 242-261): when the program
number is already present, nothing is spawned and a fresh receiver
subscribed to the existing process's output sender is returned;
otherwise a new decoder process is spawned (its `spawn` success path)
and inserted.  The returned `ℕ` is the identity of the output sender the
caller's receiver is subscribed to. -/
def add_program (st : NrscState) (programNumber : String) :
    NrscState × ℕ :=
  match st.processes.lookup programNumber with
  | some senderId => (st, senderId)
  | none =>
    ({ processes := st.processes ++ [(programNumber, st.next_id)]
       next_id := st.next_id + 1
       spawned := st.spawned + 1 }, st.next_id)

/-! ## Theorems -/

/-- C2: for every alert, the derived state is the deterministic function
of `(failing_since, last_sent_at, now, reminder_interval)` given by the
table in §4.6 of the specification, with the code's fixed ten-minute
reminder interval. -/
theorem alert_state_follows_spec_table (a : Alert) (now : ℤ) :
    a.alert_state now =
      spec_alert_state_table a.failing_since a.last_sent_update now
        reminder_interval_seconds := by
  cases h1 : a.failing_since <;> cases h2 : a.last_sent_update <;>
    simp [Alert.alert_state, spec_alert_state_table, h1, h2]

/-- C3: after every update of the rolling fingerprint buffer, its length
is at most `⌈buffer_duration / item_duration⌉` items, and the buffer is
a suffix of the fingerprinter's output, so the most recent fingerprint
items sit at its tail. -/
theorem fingerprint_buffer_bounded_and_recent
    (bufferDuration itemDuration : ℚ) (fingerprint : List ℕ) :
    (update_fingerprint_buffer fingerprint
        (record_size bufferDuration itemDuration)).length ≤
      Nat.ceil (bufferDuration / itemDuration) ∧
    List.IsSuffix
      (update_fingerprint_buffer fingerprint
        (record_size bufferDuration itemDuration))
      fingerprint := by
  have hfc : record_size bufferDuration itemDuration ≤
      Nat.ceil (bufferDuration / itemDuration) := Nat.floor_le_ceil _
  unfold update_fingerprint_buffer
  split
  · refine ⟨?_, List.drop_suffix _ _⟩
    rw [List.length_drop]
    omega
  · exact ⟨le_trans (by omega) hfc, List.suffix_refl _⟩

/-- C10: `register_sent` modifies only `last_sent_update`: it stamps it
with `now` in states `NewFailing` and `FailingReminderNeeded`, clears it
in state `NewPassing`, and leaves the alert unchanged in states
`Passing` and `FailingAlertSent`. -/
theorem register_sent_frame (a : Alert) (now : ℤ) :
    ((a.alert_state now = AlertState.NewFailing ∨
        a.alert_state now = AlertState.FailingReminderNeeded) →
      a.register_sent now = { a with last_sent_update := some now }) ∧
    (a.alert_state now = AlertState.NewPassing →
      a.register_sent now = { a with last_sent_update := none }) ∧
    ((a.alert_state now = AlertState.Passing ∨
        a.alert_state now = AlertState.FailingAlertSent) →
      a.register_sent now = a) := by
  refine ⟨fun h => ?_, fun h => ?_, fun h => ?_⟩
  · rcases h with h | h <;> simp [Alert.register_sent, h]
  · simp [Alert.register_sent, h]
  · rcases h with h | h <;> simp [Alert.register_sent, h]

/-- C10 witness: `register_sent` at a concrete alert in state
`NewFailing` stamps `last_sent_update`. -/
theorem register_sent_frame_witness :
    (Alert.mk "x" "m" (some 0) none PendingAggregation.None).alert_state
        5 = AlertState.NewFailing ∧
    (Alert.mk "x" "m" (some 0) none PendingAggregation.None).register_sent
        5 =
      Alert.mk "x" "m" (some 0) (some 5) PendingAggregation.None :=
  ⟨by decide,
    (register_sent_frame
        (Alert.mk "x" "m" (some 0) none PendingAggregation.None) 5).1
      (Or.inl (by decide))⟩

/-- Helper: when the alert is already failing, an error update rewrites
only the message. -/
lemma update_alert_entry_true_of_failing (a : Alert) (m : String)
    (now t : ℤ) (h : a.failing_since = some t) :
    update_alert_entry a true m now = { a with message := m } := by
  unfold update_alert_entry
  simp only [if_pos rfl, Alert.mark_failing, h]
  cases hls : a.last_sent_update <;> simp [Alert.alert_state, h, hls]

/-- Helper: an error update of a non-failing alert stamps
`failing_since` and stores the message, touching nothing else. -/
lemma update_alert_entry_true_of_none (a : Alert) (m : String) (now : ℤ)
    (h : a.failing_since = none) :
    update_alert_entry a true m now =
      { a with message := m, failing_since := some now } := by
  unfold update_alert_entry
  simp only [if_pos rfl, Alert.mark_failing, h]
  cases hls : a.last_sent_update <;> simp [Alert.alert_state, h, hls]

/-- C8: updating a failing alert with a second error preserves the
`failing_since` stamped by the first error update and changes only the
stored message. -/
theorem update_alert_twice_failing (a : Alert) (m1 m2 : String)
    (t1 t2 : ℤ) (h : a.failing_since = none) :
    (update_alert_entry a true m1 t1).failing_since = some t1 ∧
    update_alert_entry (update_alert_entry a true m1 t1) true m2 t2 =
      { update_alert_entry a true m1 t1 with message := m2 } := by
  have h1 := update_alert_entry_true_of_none a m1 t1 h
  refine ⟨by rw [h1], ?_⟩
  exact update_alert_entry_true_of_failing _ m2 t2 t1 (by rw [h1])

/-- C8 witness: both error updates at a concrete fresh alert. -/
theorem update_alert_twice_failing_witness :
    (Alert.new "id" "m0").failing_since = none ∧
    (update_alert_entry (Alert.new "id" "m0") true "m1" 3).failing_since =
      some 3 ∧
    update_alert_entry (update_alert_entry (Alert.new "id" "m0") true "m1" 3)
        true "m2" 7 =
      { update_alert_entry (Alert.new "id" "m0") true "m1" 3 with
        message := "m2" } :=
  ⟨rfl,
    (update_alert_twice_failing (Alert.new "id" "m0") "m1" "m2" 3 7 rfl).1,
    (update_alert_twice_failing (Alert.new "id" "m0") "m1" "m2" 3 7 rfl).2⟩

/-- Helper: association lookup skips a prefix in which the key is
absent. -/
lemma lookup_append_of_none (l1 l2 : List (String × ℕ)) (a : String)
    (h : l1.lookup a = none) : (l1 ++ l2).lookup a = l2.lookup a := by
  induction l1 with
  | nil => rfl
  | cons x xs ih =>
    rw [List.cons_append, List.lookup] at *
    split at h
    · exact absurd h (by simp)
    · exact ih h

/-- C9: adding the same program number twice spawns exactly one decoder
process: the second call leaves the state unchanged and returns a
receiver subscribed to the existing process's output sender. -/
theorem add_program_second_call_noop (st : NrscState) (p : String)
    (h : st.processes.lookup p = none) :
    (add_program st p).1.spawned = st.spawned + 1 ∧
    (add_program (add_program st p).1 p).1 = (add_program st p).1 ∧
    (add_program st p).1.processes.lookup p =
      some (add_program (add_program st p).1 p).2 := by
  have h1 : add_program st p =
      ({ processes := st.processes ++ [(p, st.next_id)]
         next_id := st.next_id + 1
         spawned := st.spawned + 1 }, st.next_id) := by
    unfold add_program
    rw [h]
  have hl : (st.processes ++ [(p, st.next_id)]).lookup p =
      some st.next_id := by
    rw [lookup_append_of_none _ _ _ h]
    simp [List.lookup]
  refine ⟨by rw [h1], ?_, ?_⟩
  · rw [h1]
    unfold add_program
    simp only [hl]
  · rw [h1]
    unfold add_program
    simp only [hl]

/-- C9 witness: adding program `"1"` twice to the empty manager. -/
theorem add_program_second_call_noop_witness :
    (NrscState.mk [] 0 0).processes.lookup "1" = none ∧
    (add_program (NrscState.mk [] 0 0) "1").1.spawned = 0 + 1 ∧
    (add_program (add_program (NrscState.mk [] 0 0) "1").1 "1").1 =
      (add_program (NrscState.mk [] 0 0) "1").1 :=
  ⟨rfl, (add_program_second_call_noop (NrscState.mk [] 0 0) "1" rfl).1,
    (add_program_second_call_noop (NrscState.mk [] 0 0) "1" rfl).2.1⟩

/-- C6: a watchdog tick that observes `Dead` increments `restart_count`
before any respawn; `respawn` then sleeps `30 · restart_count` seconds
and re-spawns the identical command template; and a watchdog tick that
observes `Running` with recent data resets `restart_count` to 0. -/
theorem respawn_backoff_and_reset (s r : CommandState)
    (tDead tSleepEnd tRun : ℤ)
    (hd : s.health = StreamHealth.Dead)
    (hr : r.health = StreamHealth.Running)
    (hrecent : tRun - r.last_message ≤ stall_timeout_seconds) :
    (watchdog_tick s tDead).restart_count = s.restart_count + 1 ∧
    (respawn (watchdog_tick s tDead) tSleepEnd).2 =
      30 * (s.restart_count + 1) ∧
    (respawn (watchdog_tick s tDead) tSleepEnd).1.command = s.command ∧
    (respawn (watchdog_tick s tDead) tSleepEnd).1.args = s.args ∧
    (watchdog_tick r tRun).restart_count = 0 := by
  refine ⟨?_, ?_, ?_, ?_, ?_⟩
  · simp [watchdog_tick, hd]
  · simp [watchdog_tick, respawn, hd]
  · simp [watchdog_tick, respawn, hd]
  · simp [watchdog_tick, respawn, hd]
  · have hnot : ¬ stall_timeout_seconds < tRun - r.last_message := by
      omega
    simp only [watchdog_tick, hr]
    rw [if_neg hnot]
    split
    · rfl
    · next hcount => simpa using hcount

/-- C6 witness: a dead stream with one prior restart and a freshly
running stream at concrete times. -/
theorem respawn_backoff_and_reset_witness :
    (CommandState.mk "ffmpeg" ["-i"] 1 StreamHealth.Dead 100).health =
        StreamHealth.Dead ∧
    (watchdog_tick (CommandState.mk "ffmpeg" ["-i"] 1 StreamHealth.Dead 100)
          105).restart_count = 2 ∧
    (respawn
        (watchdog_tick
          (CommandState.mk "ffmpeg" ["-i"] 1 StreamHealth.Dead 100) 105)
        165).2 = 60 ∧
    (watchdog_tick (CommandState.mk "rtl" [] 3 StreamHealth.Running 100)
        110).restart_count = 0 :=
  ⟨rfl,
    (respawn_backoff_and_reset
        (CommandState.mk "ffmpeg" ["-i"] 1 StreamHealth.Dead 100)
        (CommandState.mk "rtl" [] 3 StreamHealth.Running 100)
        105 165 110 rfl rfl (by decide)).1,
    (respawn_backoff_and_reset
        (CommandState.mk "ffmpeg" ["-i"] 1 StreamHealth.Dead 100)
        (CommandState.mk "rtl" [] 3 StreamHealth.Running 100)
        105 165 110 rfl rfl (by decide)).2.1,
    (respawn_backoff_and_reset
        (CommandState.mk "ffmpeg" ["-i"] 1 StreamHealth.Dead 100)
        (CommandState.mk "rtl" [] 3 StreamHealth.Running 100)
        105 165 110 rfl rfl (by decide)).2.2.2.2⟩

/-- C7: a configuration whose only stream has type `FM` passes the
startup sanity checks without a fatal error: `main` merely logs and
continues with no stream registered, instead of terminating as the
specification requires. -/
theorem fm_stream_not_rejected :
    run_sanity_checks (some [])
        [("ch", [StreamEntry.mk "s" StreamType.FM "h"])] =
      Except.ok [] := rfl

/-- C1: every within-channel result has `is_error` true exactly when its
similarity percentage is strictly below `match_threshold`, and every
cross-channel result has `is_error` true exactly when its similarity
percentage is strictly above `divergence_threshold`. -/
theorem comparison_error_flag_thresholds
    (router : String → Option (List ℕ))
    (streamNames streams1 streams2 : List String)
    (windowSize minBufferSize : ℕ)
    (itemDuration matchThreshold divergenceThreshold : ℚ)
    (matchFn : List ℕ → List ℕ → Option (ℚ × ℚ)) :
    (∀ r ∈ compare_channel_streams router streamNames windowSize
        minBufferSize itemDuration matchThreshold matchFn,
      r.is_within_channel = true ∧
      (r.is_error = true ↔ r.similarity_percent < matchThreshold)) ∧
    (∀ r ∈ compare_across_channels router streams1 streams2 windowSize
        minBufferSize itemDuration divergenceThreshold matchFn,
      r.is_within_channel = false ∧
      (r.is_error = true ↔ divergenceThreshold < r.similarity_percent)) := by
  constructor
  · intro r hr
    unfold compare_channel_streams at hr
    split at hr
    · simp at hr
    · split at hr
      · simp at hr
      · rw [List.mem_filterMap] at hr
        obtain ⟨p, -, hmk⟩ := hr
        unfold mk_within_result at hmk
        split at hmk
        · simp at hmk
        · split at hmk <;>
          · rw [Option.some.injEq] at hmk
            subst hmk
            simp
  · intro r hr
    unfold compare_across_channels at hr
    rw [List.mem_filterMap] at hr
    obtain ⟨p, -, hmk⟩ := hr
    unfold mk_cross_result at hmk
    split at hmk
    · split at hmk
      · split at hmk
        · simp at hmk
        · split at hmk <;>
          · rw [Option.some.injEq] at hmk
            subst hmk
            simp
      · simp at hmk
    · simp at hmk

/-- Router used in the C1 witness: two length-2 fingerprints. -/
def c1_router : String → Option (List ℕ) := fun n =>
  if n = "a" then some [1, 2] else if n = "b" then some [3, 4] else none

/-- Match routine used in the C1 witness: one second of similar time,
zero offset. -/
def c1_matchFn : List ℕ → List ℕ → Option (ℚ × ℚ) := fun _ _ =>
  some (1, 0)

/-- Helper: the comparator output at the C1 witness input, evaluated. -/
lemma c1_concrete_eval :
    compare_channel_streams c1_router ["a", "b"] 1 1 1 85 c1_matchFn =
      [ComparisonResult.mk "a" "b" 50 true true (some 0)] := by
  simp only [compare_channel_streams, channel_fingerprints, c1_router,
    c1_matchFn, sort_by_name, insert_by_name, index_pairs,
    mk_within_result, get_similarity_time, List.filterMap, List.map,
    List.length]
  norm_num
  rw [if_pos (by decide : (['a'] : List Char) ≤ ['b'])]
  simp only [index_pairs, List.map, List.filterMap, List.append_nil,
    mk_within_result, get_similarity_time, c1_matchFn, List.length,
    decide_eq_true_eq]
  norm_num
  rw [if_pos (by decide : (['a'] : List Char) < ['b'])]

/-- C1 witness: a concrete within-channel comparison whose emitted
result carries `is_error = true` below the 85 percent threshold. -/
theorem comparison_error_flag_thresholds_witness :
    (ComparisonResult.mk "a" "b" 50 true true (some 0)) ∈
      compare_channel_streams c1_router ["a", "b"] 1 1 1 85 c1_matchFn ∧
    ((ComparisonResult.mk "a" "b" 50 true true (some 0)).is_error =
        true ↔
      (ComparisonResult.mk "a" "b" 50 true true
          (some 0)).similarity_percent < 85) :=
  ⟨by rw [c1_concrete_eval] ; exact List.mem_singleton_self _,
    ((comparison_error_flag_thresholds c1_router ["a", "b"] [] [] 1 1 1
          85 50 c1_matchFn).1
        (ComparisonResult.mk "a" "b" 50 true true (some 0))
        (by rw [c1_concrete_eval] ; exact List.mem_singleton_self _)).2⟩

/-- Helper: both components of an index pair come from the list. -/
lemma mem_index_pairs {α : Type} (l : List α) (p : α × α)
    (h : p ∈ index_pairs l) : p.1 ∈ l ∧ p.2 ∈ l := by
  induction l with
  | nil => simp [index_pairs] at h
  | cons x xs ih =>
    rw [index_pairs, List.mem_append] at h
    rcases h with h | h
    · rw [List.mem_map] at h
      obtain ⟨y, hy, rfl⟩ := h
      exact ⟨List.mem_cons_self _ _, List.mem_cons_of_mem _ hy⟩
    · obtain ⟨h1, h2⟩ := ih h
      exact ⟨List.mem_cons_of_mem _ h1, List.mem_cons_of_mem _ h2⟩

/-- Helper: membership after sorted insertion. -/
lemma mem_insert_by_name (x y : String × List ℕ)
    (l : List (String × List ℕ)) (h : y ∈ insert_by_name x l) :
    y = x ∨ y ∈ l := by
  induction l with
  | nil => simpa [insert_by_name] using h
  | cons z zs ih =>
    rw [insert_by_name] at h
    split at h
    · rw [List.mem_cons] at h
      rcases h with h | h
      · exact Or.inl h
      · exact Or.inr h
    · rw [List.mem_cons] at h
      rcases h with h | h
      · exact Or.inr (by simp [h])
      · rcases ih h with h2 | h2
        · exact Or.inl h2
        · exact Or.inr (List.mem_cons_of_mem _ h2)

/-- Helper: sorting preserves membership. -/
lemma mem_sort_by_name (y : String × List ℕ) (l : List (String × List ℕ))
    (h : y ∈ sort_by_name l) : y ∈ l := by
  induction l with
  | nil => simp [sort_by_name] at h
  | cons z zs ih =>
    rw [sort_by_name] at h
    rcases mem_insert_by_name z y _ h with h | h
    · simp [h]
    · exact List.mem_cons_of_mem _ (ih h)

/-- Helper: every fingerprint collected for a channel cycle comes from
the router and reaches `min_buffer_size`. -/
lemma mem_channel_fingerprints (router : String → Option (List ℕ))
    (streamNames : List String) (minBufferSize : ℕ) (m : String)
    (fpm : List ℕ)
    (h : (m, fpm) ∈ channel_fingerprints router streamNames minBufferSize) :
    router m = some fpm ∧ minBufferSize ≤ fpm.length := by
  rw [channel_fingerprints, List.mem_filterMap] at h
  obtain ⟨n, -, heq⟩ := h
  split at heq
  · exact absurd heq (by simp)
  · next fp hr =>
    split at heq
    · rw [Option.some.injEq, Prod.mk.injEq] at heq
      obtain ⟨rfl, rfl⟩ := heq
      exact ⟨hr, by assumption⟩
    · exact absurd heq (by simp)

/-- Helper: a within-channel result names exactly the two streams of its
pair. -/
lemma mk_within_result_streams (matchFn : List ℕ → List ℕ → Option (ℚ × ℚ))
    (windowSize : ℕ) (itemDuration matchThreshold : ℚ)
    (p : (String × List ℕ) × (String × List ℕ)) (r : ComparisonResult)
    (h : mk_within_result matchFn windowSize itemDuration matchThreshold p =
      some r) :
    (r.stream1 = p.1.1 ∨ r.stream1 = p.2.1) ∧
    (r.stream2 = p.1.1 ∨ r.stream2 = p.2.1) := by
  unfold mk_within_result at h
  split at h
  · exact absurd h (by simp)
  · split at h <;>
    · rw [Option.some.injEq] at h
      subst h
      simp

/-- Helper: a cross-channel result only arises when both routed
fingerprints reach `min_buffer_size`, and it names exactly its pair. -/
lemma mk_cross_result_streams (router : String → Option (List ℕ))
    (matchFn : List ℕ → List ℕ → Option (ℚ × ℚ))
    (windowSize minBufferSize : ℕ) (itemDuration divergenceThreshold : ℚ)
    (p : String × String) (r : ComparisonResult)
    (h : mk_cross_result router matchFn windowSize minBufferSize
      itemDuration divergenceThreshold p = some r) :
    (∃ fp1, router p.1 = some fp1 ∧ minBufferSize ≤ fp1.length) ∧
    (∃ fp2, router p.2 = some fp2 ∧ minBufferSize ≤ fp2.length) ∧
    (r.stream1 = p.1 ∨ r.stream1 = p.2) ∧
    (r.stream2 = p.1 ∨ r.stream2 = p.2) := by
  unfold mk_cross_result at h
  split at h
  · next fp1 fp2 heq1 heq2 =>
    split at h
    · next hlen =>
      split at h
      · exact absurd h (by simp)
      · split at h <;>
        · rw [Option.some.injEq] at h
          subst h
          exact ⟨⟨fp1, heq1, hlen.1⟩, ⟨fp2, heq2, hlen.2⟩, by simp, by simp⟩
    · exact absurd h (by simp)
  · exact absurd h (by simp)

/-- Router used in the C5 counterexample: two length-1 fingerprints. -/
def c5_router : String → Option (List ℕ) := fun n =>
  if n = "a" then some [5] else if n = "b" then some [6] else none

/-- Match routine used in the C5 counterexample. -/
def c5_matchFn : List ℕ → List ℕ → Option (ℚ × ℚ) := fun _ _ =>
  some (1, 0)

/-- C5 counterexample: with `min_buffer_duration = 3` and
`item_duration = 2` the code's `min_buffer_size` is the truncation 1,
not the claimed ceiling 2, and a pair whose snapshots both have length 1
(shorter than the claimed ceiling) still produces an emitted comparison
result. -/
theorem min_buffer_size_not_ceiling :
    min_buffer_size 3 2 = 1 ∧
    Nat.ceil ((3 : ℚ) / 2) = 2 ∧
    compare_channel_streams c5_router ["a", "b"] 1 (min_buffer_size 3 2)
        2 85 c5_matchFn =
      [ComparisonResult.mk "a" "b" 50 true true (some 0)] := by
  have h1 : min_buffer_size 3 2 = 1 := by
    rw [min_buffer_size, Nat.floor_eq_iff (by norm_num)]
    norm_num
  refine ⟨h1, ?_, ?_⟩
  · rw [Nat.ceil_eq_iff (by norm_num)]
    norm_num
  · rw [h1]
    simp only [compare_channel_streams, channel_fingerprints, c5_router,
      c5_matchFn, sort_by_name, insert_by_name, index_pairs,
      mk_within_result, get_similarity_time, List.filterMap, List.map,
      List.length]
    norm_num
    rw [if_pos (by decide : (['a'] : List Char) ≤ ['b'])]
    simp only [index_pairs, List.map, List.filterMap, List.append_nil,
      mk_within_result, get_similarity_time, c5_matchFn, List.length,
      decide_eq_true_eq]
    norm_num
    rw [if_pos (by decide : (['a'] : List Char) < ['b'])]

/-- C5 amended: the comparator's minimum buffer size is the truncation
`⌊min_buffer_duration / item_duration⌋`; a stream whose snapshot is
shorter than that never appears in any emitted comparison result of the
cycle, within or across channels. -/
theorem comparator_skips_short_fingerprints
    (router : String → Option (List ℕ))
    (streamNames streams1 streams2 : List String) (windowSize : ℕ)
    (minBufferDuration itemDuration matchThreshold divergenceThreshold : ℚ)
    (matchFn : List ℕ → List ℕ → Option (ℚ × ℚ)) (n : String)
    (fp : List ℕ) (hn : router n = some fp)
    (hshort : fp.length < min_buffer_size minBufferDuration itemDuration) :
    (∀ r ∈ compare_channel_streams router streamNames windowSize
        (min_buffer_size minBufferDuration itemDuration) itemDuration
        matchThreshold matchFn,
      r.stream1 ≠ n ∧ r.stream2 ≠ n) ∧
    (∀ r ∈ compare_across_channels router streams1 streams2 windowSize
        (min_buffer_size minBufferDuration itemDuration) itemDuration
        divergenceThreshold matchFn,
      r.stream1 ≠ n ∧ r.stream2 ≠ n) := by
  constructor
  · intro r hr
    unfold compare_channel_streams at hr
    split at hr
    · simp at hr
    · split at hr
      · simp at hr
      · rw [List.mem_filterMap] at hr
        obtain ⟨p, hp, hmk⟩ := hr
        obtain ⟨hp1, hp2⟩ := mem_index_pairs _ p hp
        have h1 := mem_channel_fingerprints router streamNames _ p.1.1 p.1.2
          (by simpa using mem_sort_by_name _ _ hp1)
        have h2 := mem_channel_fingerprints router streamNames _ p.2.1 p.2.2
          (by simpa using mem_sort_by_name _ _ hp2)
        obtain ⟨hs1, hs2⟩ := mk_within_result_streams _ _ _ _ p r hmk
        constructor
        · rcases hs1 with h | h <;> rw [h] <;> rintro rfl
          · rw [hn, Option.some.injEq] at h1
            obtain ⟨heq2, hlen⟩ := h1
            rw [← heq2] at hlen
            omega
          · rw [hn, Option.some.injEq] at h2
            obtain ⟨heq2, hlen⟩ := h2
            rw [← heq2] at hlen
            omega
        · rcases hs2 with h | h <;> rw [h] <;> rintro rfl
          · rw [hn, Option.some.injEq] at h1
            obtain ⟨heq2, hlen⟩ := h1
            rw [← heq2] at hlen
            omega
          · rw [hn, Option.some.injEq] at h2
            obtain ⟨heq2, hlen⟩ := h2
            rw [← heq2] at hlen
            omega
  · intro r hr
    unfold compare_across_channels at hr
    rw [List.mem_filterMap] at hr
    obtain ⟨p, -, hmk⟩ := hr
    obtain ⟨⟨fp1, hr1, hl1⟩, ⟨fp2, hr2, hl2⟩, hs1, hs2⟩ :=
      mk_cross_result_streams _ _ _ _ _ _ p r hmk
    constructor
    · rcases hs1 with h | h <;> rw [h] <;> rintro rfl
      · rw [hn] at hr1
        rw [Option.some.injEq] at hr1
        subst hr1
        omega
      · rw [hn] at hr2
        rw [Option.some.injEq] at hr2
        subst hr2
        omega
    · rcases hs2 with h | h <;> rw [h] <;> rintro rfl
      · rw [hn] at hr1
        rw [Option.some.injEq] at hr1
        subst hr1
        omega
      · rw [hn] at hr2
        rw [Option.some.injEq] at hr2
        subst hr2
        omega

/-- Router used in the C5 amended witness. -/
def c5w_router : String → Option (List ℕ) := fun n =>
  if n = "a" then some [1] else if n = "b" then some [2, 3] else none

/-- Helper: the C5 amended witness buffer threshold evaluates to 2. -/
lemma min_buffer_size_four_two : min_buffer_size 4 2 = 2 := by
  rw [min_buffer_size, Nat.floor_eq_iff (by norm_num)]
  norm_num

/-- C5 amended witness: with `min_buffer_duration = 4` and
`item_duration = 2`, stream `"a"` (snapshot length 1 < 2) appears in no
emitted result. -/
theorem comparator_skips_short_fingerprints_witness :
    c5w_router "a" = some [1] ∧
    ([1] : List ℕ).length < min_buffer_size 4 2 ∧
    (∀ r ∈ compare_channel_streams c5w_router ["a", "b"] 1
        (min_buffer_size 4 2) 2 85 c5_matchFn,
      r.stream1 ≠ "a" ∧ r.stream2 ≠ "a") :=
  ⟨rfl, by rw [min_buffer_size_four_two] ; norm_num,
    (comparator_skips_short_fingerprints c5w_router ["a", "b"] [] [] 1 4
        2 85 50 c5_matchFn "a" [1] rfl
        (by rw [min_buffer_size_four_two] ; norm_num)).1⟩

/-- Helper: while an alert is freshly failing with no message ever sent
and every tick falls inside the grace period, the alert loop emits
nothing and changes nothing. -/
lemma run_ticks_in_grace (nm ms : String) (t0 gracePeriod : ℤ)
    (ts : List ℤ) (h : ∀ t ∈ ts, t - t0 < gracePeriod) :
    run_alert_ticks
        (Alert.mk nm ms (some t0) none PendingAggregation.None) ts
        gracePeriod =
      (Alert.mk nm ms (some t0) none PendingAggregation.None, []) := by
  induction ts with
  | nil => rfl
  | cons t ts ih =>
    have hstep : alert_loop_tick
        (Alert.mk nm ms (some t0) none PendingAggregation.None) t
        gracePeriod =
        (Alert.mk nm ms (some t0) none PendingAggregation.None, []) := by
      have hlt : ¬ gracePeriod ≤ t - t0 := by
        have := h t (List.mem_cons_self _ _)
        omega
      simp [alert_loop_tick, process_alerts_step, process_aggregated_step,
        Alert.alert_state, hlt]
    rw [run_alert_ticks, hstep]
    rw [ih (fun x hx => h x (List.mem_cons_of_mem _ hx))]
    rfl

/-- Helper: a fully passing alert with nothing pending is a fixed point
of the alert loop and emits nothing. -/
lemma run_ticks_passing (nm ms : String) (gracePeriod : ℤ)
    (ts : List ℤ) :
    run_alert_ticks (Alert.mk nm ms none none PendingAggregation.None)
        ts gracePeriod =
      (Alert.mk nm ms none none PendingAggregation.None, []) := by
  induction ts with
  | nil => rfl
  | cons t ts ih =>
    have hstep : alert_loop_tick
        (Alert.mk nm ms none none PendingAggregation.None) t gracePeriod =
        (Alert.mk nm ms none none PendingAggregation.None, []) := by
      simp [alert_loop_tick, process_alerts_step, process_aggregated_step,
        Alert.alert_state]
    rw [run_alert_ticks, hstep, ih]
    rfl

/-- C4: a failure observed by `update_alert(id, true, m)` and cleared by
`update_alert(id, false, m2)` before the grace period elapsed, with
every intervening alert-loop tick inside the grace period (so no failure
message was sent in between), contributes zero transport messages —
neither during the failing phase nor on any tick after the clear. -/
theorem grace_period_suppresses_all_messages (idv m m2 : String)
    (t0 t1 gracePeriod : ℤ) (ts ts2 : List ℤ)
    (hts : ∀ t ∈ ts, t - t0 < gracePeriod)
    (_ht1 : t1 - t0 < gracePeriod) :
    (run_alert_ticks (update_alert none idv true m t0) ts
        gracePeriod).2 = [] ∧
    (run_alert_ticks
        (update_alert
          (some (run_alert_ticks (update_alert none idv true m t0) ts
            gracePeriod).1)
          idv false m2 t1)
        ts2 gracePeriod).2 = [] := by
  have h1 : update_alert none idv true m t0 =
      Alert.mk idv m (some t0) none PendingAggregation.None := by
    simp [update_alert, update_alert_entry, Alert.new, Alert.mark_failing,
      Alert.alert_state]
  have h2 := run_ticks_in_grace idv m t0 gracePeriod ts hts
  rw [h1, h2]
  have h3 : update_alert
      (some (Alert.mk idv m (some t0) none PendingAggregation.None)) idv
      false m2 t1 =
      Alert.mk idv m none none PendingAggregation.None := by
    simp [update_alert, update_alert_entry, Alert.mark_passing,
      Alert.alert_state]
  rw [h3, run_ticks_passing]
  exact ⟨rfl, rfl⟩

/-- C4 witness: failure at time 0, ticks at 10 and 20, clear at 30,
grace period 60 seconds, later ticks at 40 and 700. -/
theorem grace_period_suppresses_all_messages_witness :
    ((10 : ℤ) - 0 < 60 ∧ (20 : ℤ) - 0 < 60 ∧ (30 : ℤ) - 0 < 60) ∧
    (run_alert_ticks (update_alert none "p" true "down" 0) [10, 20]
        60).2 = [] ∧
    (run_alert_ticks
        (update_alert
          (some (run_alert_ticks (update_alert none "p" true "down" 0)
            [10, 20] 60).1)
          "p" false "up" 30)
        [40, 700] 60).2 = [] :=
  ⟨by norm_num,
    (grace_period_suppresses_all_messages "p" "down" "up" 0 30 60
        [10, 20] [40, 700] (by intro t ht ; fin_cases ht <;> norm_num)
        (by norm_num)).1,
    (grace_period_suppresses_all_messages "p" "down" "up" 0 30 60
        [10, 20] [40, 700] (by intro t ht ; fin_cases ht <;> norm_num)
        (by norm_num)).2⟩

end RadioWatchdog
